import Mathlib

/-!
Shallow embedding of the bike-service staff dashboard core
(`src/service/views_staff.py`, `src/service/view_common.py`,
`src/service/models.py`) and proofs about it.

Conventions of the embedding:
* Python strings are Lean `String`; Django `icontains` is modelled as a
  case-insensitive substring test (`Char.toLower`; the repository's queries
  and codes are ASCII).
* timestamps are `Int` seconds, calendar dates are `Int` day numbers, and
  `dateOf` (= `__date` extraction under a fixed timezone) is floor division
  by 86400.
* `Decimal` currency values are exact rationals (`Rat`); `DecimalField`
  values are stored with two decimal places, so sums are exact.
* fallible parsing performed by library collaborators (Python `Decimal`,
  `date.fromisoformat`) is modelled by the parse *outcome* carried in the
  form value.
-/

namespace BikeService

/-- Lower-case a string character-wise (model of Python `str.lower` /
Django `icontains` case folding on the ASCII data in this repository). -/
def lowerStr (s : String) : String :=
  ⟨s.data.map Char.toLower⟩

/-- Check whether `pat` occurs as a contiguous sub-sequence of `l`. -/
def containsChars : List Char → List Char → Bool
  | pat, [] => pat.isEmpty
  | pat, c :: t => pat.isPrefixOf (c :: t) || containsChars pat t

/-- Model of Django `field__icontains=needle`: case-insensitive substring. -/
def icontains (hay needle : String) : Bool :=
  containsChars (lowerStr needle).data (lowerStr hay).data

/-- Model of `re.sub(r"\D+", "", s)`: keep only the digits. -/
def digitsOnly (s : String) : String :=
  ⟨s.data.filter Char.isDigit⟩

/-- Value of a digit string, i.e. Python `int(s)` on a `\d+` match. -/
def digitsToNat (s : String) : Nat :=
  s.data.foldl (fun a c => a * 10 + (c.toNat - 48)) 0

/-- Model of `re.fullmatch(r"#?\s*(\d+)", q)` from
`_apply_service_panel_smart_search`: an optional `#`, optional whitespace,
then one or more digits spanning the whole string; returns the digit group. -/
def parseExactQuery (q : String) : Option String :=
  let cs := q.data
  let cs := match cs with
    | '#' :: rest => rest
    | other => other
  let cs := cs.dropWhile Char.isWhitespace
  if cs ≠ [] ∧ cs.all Char.isDigit then some ⟨cs⟩ else none

/-- Model of Python `str.strip()` on the whitespace of this repository's
queries. -/
def trimStr (s : String) : String :=
  ⟨((s.data.dropWhile Char.isWhitespace).reverse.dropWhile Char.isWhitespace).reverse⟩

/-- Split at single whitespace characters, accumulating the current word. -/
def splitWsAux : List Char → List Char → List String
  | [], acc => [⟨acc.reverse⟩]
  | c :: t, acc =>
      if c.isWhitespace then ⟨acc.reverse⟩ :: splitWsAux t [] else splitWsAux t (c :: acc)

/-- Model of `[t for t in re.split(r"\s+", q) if t]`: dropping the empty
pieces makes splitting at single whitespace characters agree with
splitting at whitespace runs. -/
def splitTokens (q : String) : List String :=
  (splitWsAux q.data []).filter (fun t => t ≠ "")

/-- The ticket rows reachable from an order in the smart search
(`tickets__subject`, `tickets__message`, `tickets__messages__message`). -/
structure SearchTicket where
  subject : String
  message : String
  messages : List String
deriving DecidableEq, Repr

/-- The order fields touched by `_apply_service_panel_smart_search`
(order row joined with its bike, customer and tickets). -/
structure SearchOrder where
  id : Nat
  service_code : String
  issue_description : String
  work_done : String
  customer_full_name : String
  customer_email : String
  customer_phone : String
  bike_brand : String
  bike_model : String
  bike_serial : String
  tickets : List SearchTicket
deriving DecidableEq, Repr

/-- The exact-lookup branch filter:
`Q(id=int(code)) | Q(service_code__icontains=code)`. -/
def exactLookup (code : String) (o : SearchOrder) : Bool :=
  o.id == digitsToNat code || icontains o.service_code code

/-- The phone clause of the token filter: the token is digit-stripped
(`token_phone = re.sub(r"\D+", "", token)`) and, when non-empty, matched by
`Q(bike__customer__phone_number__icontains=token_phone)` against the phone
number exactly as stored. -/
def tokenPhoneMatch (token phone : String) : Bool :=
  let tp := digitsOnly token
  tp ≠ "" && icontains phone tp

/-- One token's filter over an order: the disjunction of the `icontains`
clauses of `_apply_service_panel_smart_search`, plus the phone clause. -/
def tokenMatch (o : SearchOrder) (token : String) : Bool :=
  icontains o.customer_full_name token
  || icontains o.customer_email token
  || icontains o.bike_brand token
  || icontains o.bike_model token
  || icontains o.bike_serial token
  || icontains o.issue_description token
  || icontains o.work_done token
  || icontains o.service_code token
  || o.tickets.any (fun t => icontains t.subject token)
  || o.tickets.any (fun t => icontains t.message token)
  || o.tickets.any (fun t => t.messages.any (fun m => icontains m token))
  || tokenPhoneMatch token o.customer_phone

/-- Model of `_apply_service_panel_smart_search(orders_qs, query)`.
The queryset is a list of distinct order rows; `.filter` is `List.filter`,
successive `filter` calls realise the AND across tokens, and the final
`.distinct()` is the identity because a row list has no join duplicates. -/
def smartSearch (orders : List SearchOrder) (query : String) : List SearchOrder :=
  let q := trimStr query
  if q = "" then orders
  else
    match parseExactQuery q with
    | some code => orders.filter (exactLookup code)
    | none =>
        (splitTokens q).foldl (fun acc token => acc.filter (fun o => tokenMatch o token)) orders

/-- The `ServiceOrder.Status` enum from `src/service/models.py`. -/
inductive Status where
  | NEW
  | IN_PROGRESS
  | WAITING_PART
  | READY
  | DONE
deriving DecidableEq, Repr

/-- The `ServiceOrderLog.Kind` enum from `src/service/models.py`. -/
inductive LogKind where
  | SMS
  | EMAIL_INVITE
  | EMAIL_PROTOCOL
  | EMAIL_DONE
deriving DecidableEq, Repr

/-- The `Ticket.Status` enum from `src/service/models.py`. -/
inductive TicketStatus where
  | OPEN
  | WAITING_ADMIN
  | WAITING_CUSTOMER
  | CLOSED
deriving DecidableEq, Repr

/-- The `CHECKLIST_DEFS` list from `src/service/view_common.py` (key, label pairs). -/
def CHECKLIST_DEFS : List (String × String) :=
  [("brakes", "Brzdy"),
   ("shifting", "Radenie"),
   ("tyre_pressure", "Tlak v pneumatikách"),
   ("bearings", "Ložiská"),
   ("torque", "Dotiahnutie skrutiek"),
   ("chain", "Reťaz a pohon"),
   ("wheels", "Kolesá a výplet"),
   ("cleaning", "Čistenie")]

/-- One entry of `SERVICE_PACKAGE_DEFS`. -/
structure PackageDef where
  label : String
  price : Rat
  work_done : String
  checklist_keys : List String
deriving DecidableEq, Repr

/-- The `SERVICE_PACKAGE_DEFS` table from `src/service/view_common.py`. -/
def SERVICE_PACKAGE_DEFS : List (String × PackageDef) :=
  [("basic",
    { label := "Basic servis"
      price := 29
      work_done := "Základná kontrola bicykla, dofúkanie pneumatík, kontrola bŕzd a radenia."
      checklist_keys := ["brakes", "shifting", "tyre_pressure", "torque"] }),
   ("full",
    { label := "Full servis"
      price := 69
      work_done := "Kompletný servis pohonu, bŕzd, radenia, ložísk a finálne čistenie bicykla."
      checklist_keys := ["brakes", "shifting", "tyre_pressure", "bearings", "torque", "chain", "wheels", "cleaning"] }),
   ("brake_setup",
    { label := "Brake setup"
      price := 39
      work_done := "Nastavenie bŕzd, centrovanie kotúčov, kontrola opotrebenia platničiek a test funkčnosti."
      checklist_keys := ["brakes", "torque", "wheels"] })]

/-- The persisted fields of a `ServiceOrder` row that the staff lifecycle
mutations read or write (`src/service/models.py`).  `checklist` is the
JSON mapping as an association list; timestamps are `Int` seconds. -/
structure OrderState where
  status : Status
  service_code : String
  issue_description : String
  work_done : String
  price : Rat
  promised_date : Option Int
  checklist : List (String × Bool)
  created_at : Int
  completed_at : Option Int
deriving DecidableEq, Repr

/-- Outcome of one staff mutation: the persisted order row afterwards,
whether a customer "service complete" email was queued, which
`ServiceOrderLog` rows were appended by the mutation, and whether the
submission was accepted (`saved = false` is the validation-error render). -/
structure MutationResult where
  order : OrderState
  emailSent : Bool
  logs : List LogKind
  saved : Bool
deriving DecidableEq, Repr

/-- The `action == "row_update_status"` branch of `service_panel`
(`src/service/views_staff.py`, lines 131-150), on a found order with a
valid status value: set the status; entering `DONE` with `completed_at`
null stamps `now`, entering `DONE` with it already set keeps it, and any
non-`DONE` status clears it.  The branch saves the row and invalidates the
dashboard cache; it queues no email and creates no `ServiceOrderLog`. -/
def rowUpdateStatus (o : OrderState) (newStatus : Status) (now : Int) : MutationResult :=
  let o := { o with status := newStatus }
  let o :=
    if newStatus = Status.DONE then
      if o.completed_at = none then { o with completed_at := some now } else o
    else
      { o with completed_at := none }
  { order := o, emailSent := false, logs := [], saved := true }

/-- The `action == "apply_service_package"` branch of
`service_order_admin_detail` (`src/service/views_staff.py`, lines 407-420):
overwrite price and work-done from the package and rebuild the whole
checklist as `{key: key in package["checklist_keys"] for key, _ in
CHECKLIST_DEFS}`. -/
def applyServicePackage (o : OrderState) (pkg : PackageDef) : OrderState :=
  { o with
    price := pkg.price
    work_done := pkg.work_done
    checklist := CHECKLIST_DEFS.map (fun kd => (kd.1, pkg.checklist_keys.contains kd.1)) }

/-- The form data of the order-detail save (`service_order_admin_detail`,
lines 422-441), with library parsing represented by its outcome:
* `status`: `some s` when the posted status string is in
  `ServiceOrder.Status.choices`, else `none` (the code then leaves the
  stored status unchanged);
* `price`: `none` for an empty field, `some none` for a non-empty field on
  which `Decimal(price_raw.replace(",", "."))` raises, `some (some v)` for
  a field parsing to `v`;
* `promised_date`: the result of `_parse_date` (`none` for empty or
  unparseable input);
* `checklist`: `none` when no `cl_<key>` marker is present in the POST,
  else `some checked` where `checked` are the keys posted with truthy
  values. -/
structure DetailForm where
  status : Option Status
  price : Option (Option Rat)
  issue_description : String
  work_done : String
  promised_date : Option Int
  checklist : Option (List String)
deriving DecidableEq, Repr

/-- The fall-through full-save branch of `service_order_admin_detail`
(`src/service/views_staff.py`, lines 422-506).  `customerEmail` is
`order.bike.customer.email`.  On a malformed price the view renders the
error without ever calling `order.save()`, so the persisted row stays the
pre-submission one and no email or log is produced; the in-memory field
assignments made before the price check are discarded with the request.
Otherwise every field is persisted in one `order.save()`; first-time
completion (`status == DONE` and stored `completed_at` null) stamps `now`
and, when the customer has an email, queues the "service complete" email
and appends an `EMAIL_DONE` log. -/
def serviceOrderDetailSave (o : OrderState) (customerEmail : String)
    (form : DetailForm) (now : Int) : MutationResult :=
  let status' := form.status.getD o.status
  let checklist' :=
    match form.checklist with
    | some checked => CHECKLIST_DEFS.map (fun kd => (kd.1, checked.contains kd.1))
    | none => o.checklist
  match form.price with
  | some none =>
      { order := o, emailSent := false, logs := [], saved := false }
  | priceField =>
      let price' :=
        match priceField with
        | some (some v) => v
        | _ => o.price
      let justCompleted := status' = Status.DONE ∧ o.completed_at = none
      let completed' :=
        if status' = Status.DONE then
          if o.completed_at = none then some now else o.completed_at
        else
          none
      let o' :=
        { o with
          status := status'
          promised_date := form.promised_date
          checklist := checklist'
          price := price'
          issue_description := form.issue_description
          work_done := form.work_done
          completed_at := completed' }
      let notify := decide justCompleted && customerEmail ≠ ""
      { order := o'
        emailSent := notify
        logs := if notify then [LogKind.EMAIL_DONE] else []
        saved := true }

/-- Order creation in `create_service_order` (`src/service/views_staff.py`):
`ServiceOrder.objects.create(bike=..., issue_description=...,
status=ServiceOrder.Status.NEW)` with the model defaults of
`src/service/models.py` for every other field. -/
def createServiceOrder (issue : String) (now : Int) : OrderState :=
  { status := Status.NEW
    service_code := ""
    issue_description := issue
    work_done := ""
    price := 0
    promised_date := none
    checklist := []
    created_at := now
    completed_at := none }

/-- The completion invariant of the spec's data model:
`completed_at` is non-null iff `status == DONE`. -/
def completionInvariant (o : OrderState) : Prop :=
  o.completed_at ≠ none ↔ o.status = Status.DONE

instance (o : OrderState) : Decidable (completionInvariant o) := by
  unfold completionInvariant; infer_instance

/-- Day number of a timestamp: the `__date` extraction used by
`completed_at__date` lookups, under a fixed timezone. -/
def dateOf (t : Int) : Int :=
  Int.fdiv t 86400

/-- Stand-in for `strftime("%d.%m.%Y")`: an injective rendering of a day
number; the classification logic never depends on the format. -/
def fmtDate (d : Int) : String :=
  toString d

/-- Model of `_eta_meta(order, today)` from `src/service/view_common.py`
(lines 145-166): maps the promised date, completion state and today to
`(label, chip css class, warn flag)`. -/
def etaMeta (o : OrderState) (today : Int) : String × String × Bool :=
  match o.promised_date with
  | none => ("Bez termínu", "chip-gray", false)
  | some promised =>
    if o.completed_at.isSome then
      (fmtDate promised, "chip-gray", false)
    else if promised < today then
      ("Mešká " ++ fmtDate promised, "chip-orange", true)
    else if today = promised then
      ("Dnes " ++ fmtDate promised, "chip-blue", true)
    else
      let delta := promised - today
      if delta = 1 then ("Zajtra " ++ fmtDate promised, "chip-blue", true)
      else if delta ≤ 2 then ("On time " ++ fmtDate promised, "chip-blue", false)
      else (fmtDate promised, "chip-gray", false)

/-- Insert into a list sorted by `le` (kept structural so concrete inputs
evaluate inside the kernel). -/
def insSorted (le : α → α → Bool) (x : α) : List α → List α
  | [] => [x]
  | y :: t => if le x y then x :: y :: t else y :: insSorted le x t

/-- Insertion sort by `le`; models a Django `order_by` (tie order between
equal keys is unspecified at the database as well). -/
def insSort (le : α → α → Bool) : List α → List α
  | [] => []
  | x :: t => insSorted le x (insSort le t)

/-- Sort descending by an integer key: `order_by("-completed_at")`. -/
def sortByKeyDesc (key : α → Int) (l : List α) : List α :=
  insSort (fun a b => key b ≤ key a) l

/-- Round half to even, the rounding Python's `round` uses. -/
def roundHalfEven (x : Rat) : Int :=
  let f := ⌊x⌋
  let r := x - f
  if r < 1/2 then f
  else if 1/2 < r then f + 1
  else if Int.emod f 2 = 0 then f else f + 1

/-- Model of Python `round(x, 1)` in exact rational arithmetic (the
binary-float representation of the intermediate value is abstracted). -/
def round1 (x : Rat) : Rat :=
  (roundHalfEven (10 * x) : Rat) / 10

/-- The KPI dictionary built by `get_staff_dashboard_counts`. -/
structure Snapshot where
  waiting_tickets_count : Nat
  stat_orders_new : Nat
  stat_orders_in_progress : Nat
  stat_orders_done_today : Nat
  unfinished_count : Nat
  open_tickets_count : Nat
  completed_last_7_days : Nat
  avg_repair_days : Rat
deriving DecidableEq, Repr

/-- The entity store as read by the dashboard aggregator: the service
order rows and the ticket statuses. -/
structure DB where
  orders : List OrderState
  tickets : List TicketStatus
deriving DecidableEq, Repr

/-- The aggregate computation inside `get_staff_dashboard_counts`
(`src/service/view_common.py`, lines 234-264): the cache-miss path that
reads the entity store.  `recent_completed` is the 200 most recently
completed orders (`completed_at` non-null, ordered by `-completed_at`);
durations in days are taken over those of them with `completed_at >=
created_at` (`created_at` is non-null by schema, and both timestamps are
truthy datetimes), and the average is rounded to one decimal, defaulting
to 0 when no duration is eligible. -/
def computeCounts (db : DB) (today : Int) : Snapshot :=
  let recent_completed :=
    (sortByKeyDesc (fun o => o.completed_at.getD 0)
      (db.orders.filter (fun o => o.completed_at.isSome))).take 200
  let durations := recent_completed.filterMap (fun o =>
    match o.completed_at with
    | some c => if o.created_at ≤ c then some (((c - o.created_at : Int) : Rat) / 86400) else none
    | none => none)
  let avg_repair_days : Rat :=
    if durations.isEmpty then 0 else round1 (durations.sum / (durations.length : Rat))
  { waiting_tickets_count :=
      (db.tickets.filter (fun s => s == TicketStatus.OPEN || s == TicketStatus.WAITING_ADMIN)).length
    stat_orders_new :=
      (db.orders.filter (fun o => o.completed_at.isNone && o.status == Status.NEW)).length
    stat_orders_in_progress :=
      (db.orders.filter (fun o => o.completed_at.isNone && o.status == Status.IN_PROGRESS)).length
    stat_orders_done_today :=
      (db.orders.filter (fun o =>
        match o.completed_at with
        | some c => dateOf c == today
        | none => false)).length
    unfinished_count :=
      (db.orders.filter (fun o => !(o.status == Status.DONE))).length
    open_tickets_count :=
      (db.tickets.filter (fun s => !(s == TicketStatus.CLOSED))).length
    completed_last_7_days :=
      (db.orders.filter (fun o =>
        match o.completed_at with
        | some c => today - 6 ≤ dateOf c
        | none => false)).length
    avg_repair_days := avg_repair_days }

/-- The dashboard cache: the `service:dashboard:version` counter (`none`
when the key was never initialised) and the snapshot entries keyed by
`(version, day)` — the key string
`service:dashboard:stats:v{version}:{today}`.  Snapshot entries carry a
TTL; the claims below concern the read immediately after a mutation, so
entries are modelled as unexpired. -/
structure CacheState where
  version : Option Nat
  snaps : List ((Nat × Int) × Snapshot)
deriving DecidableEq, Repr

/-- Model of `invalidate_dashboard_cache` (`src/service/view_common.py`, lines
218-224): `cache.add` initialises the counter to 1 when the key is
absent and reports failure when it exists, in which case `cache.incr`
increments it (the `ValueError` fallback to 1 is unreachable in this
sequential model because `add` just reported the key present). -/
def invalidateDashboardCache (c : CacheState) : CacheState :=
  match c.version with
  | none => { c with version := some 1 }
  | some v => { c with version := some (v + 1) }

/-- Model of `get_staff_dashboard_counts` (`src/service/view_common.py`, lines
227-266): read the version with default 1, look the snapshot key up, and
on a miss recompute from the entity store and cache the result. -/
def getStaffDashboardCounts (c : CacheState) (db : DB) (today : Int) :
    Snapshot × CacheState :=
  let v := c.version.getD 1
  let key := (v, today)
  match List.lookup key c.snaps with
  | some s => (s, c)
  | none =>
      let s := computeCounts db today
      (s, { c with snaps := (key, s) :: c.snaps })

/-- Truncation of a rational toward zero: `Decimal.to_integral_value`
with `rounding=ROUND_DOWN`. -/
def ratTrunc (q : Rat) : Int :=
  if q < 0 then -⌊-q⌋ else ⌊q⌋

/-- The dictionary built by `_loyalty_stats_for_profile`. -/
structure LoyaltyStats where
  total_spent : Rat
  points : Int
  discount_eur : Int
  points_to_next : Int
deriving DecidableEq, Repr

/-- Model of `_loyalty_stats_for_profile` (`src/service/view_common.py`, lines
177-203) over the profile's order rows: sum the prices of the completed
orders (`Coalesce(Sum(price), 0.00)`; the `quantize(Decimal("0.01"))` is
the identity here because `DecimalField` prices carry two decimal places
and rational sums are exact), truncate half the total toward zero
(`ROUND_DOWN`) for the points, then Python `//` (`Int.fdiv`) and `%`
(Euclidean remainder for the positive modulus 10) for the discount and
the distance to the next discount step. -/
def loyaltyStatsForProfile (orders : List OrderState) : LoyaltyStats :=
  let total_spent : Rat :=
    (orders.filterMap (fun o => if o.completed_at.isSome then some o.price else none)).sum
  let points : Int := ratTrunc (total_spent / 2)
  let discount_eur := Int.fdiv points 10
  let remainder := Int.emod points 10
  let points_to_next : Int := if remainder = 0 then 0 else 10 - remainder
  { total_spent := total_spent
    points := points
    discount_eur := discount_eur
    points_to_next := points_to_next }

/-! Helper lemmas. -/

theorem filter_eq_singleton_of_unique {α : Type} (p : α → Bool) (l : List α) (a : α)
    (hnd : l.Nodup) (ha : a ∈ l) (hpa : p a = true)
    (huniq : ∀ b ∈ l, p b = true → b = a) : l.filter p = [a] := by
  induction l with
  | nil => cases ha
  | cons x t ih =>
      rw [List.nodup_cons] at hnd
      rcases List.mem_cons.mp ha with hax | hat
      · subst hax
        have ht : t.filter p = [] := by
          rw [List.filter_eq_nil_iff]
          intro b hb hpb
          exact hnd.1 ((huniq b (List.mem_cons_of_mem _ hb) hpb) ▸ hb)
        simp [List.filter_cons, hpa, ht]
      · have hpx : p x = false := by
          by_contra hx
          have := huniq x (List.mem_cons_self x t) (Bool.of_not_eq_false hx ▸ by
            cases hpxv : p x with
            | true => rfl
            | false => exact absurd hpxv hx)
          subst this
          exact hnd.1 hat
        rw [List.filter_cons, if_neg (by simp [hpx])]
        exact ih hnd.2 hat (fun b hb hpb => huniq b (List.mem_cons_of_mem _ hb) hpb)

theorem lookup_eq_none_of_keys {β : Type} (k : Nat × Int) (l : List ((Nat × Int) × β))
    (h : ∀ e ∈ l, e.1 ≠ k) : List.lookup k l = none := by
  induction l with
  | nil => rfl
  | cons e t ih =>
      have hk : (k == e.1) = false := by
        have he := h e (List.mem_cons_self e t)
        exact beq_eq_false_iff_ne.mpr (fun hke => he hke.symm)
      rcases e with ⟨ke, ve⟩
      rw [List.lookup, hk]
      exact ih (fun x hx => h x (List.mem_cons_of_mem _ hx))

/-! Claim theorems. -/

/-- C1: for every staff lifecycle mutation — the `row_update_status`
action, the full order-detail save, order creation and package
application — the invariant "`completed_at` is non-null iff
`status == DONE`" holds after the mutation whenever it held before:
entering `DONE` with `completed_at` null stamps it, entering `DONE` with
it set keeps it, and any non-`DONE` status clears it. -/
theorem completion_invariant_after_every_mutation
    (o : OrderState) (ns : Status) (now : Int) (email : String)
    (form : DetailForm) (pkg : PackageDef) (issue : String)
    (h : completionInvariant o) :
    completionInvariant (rowUpdateStatus o ns now).order ∧
    completionInvariant (serviceOrderDetailSave o email form now).order ∧
    completionInvariant (applyServicePackage o pkg) ∧
    completionInvariant (createServiceOrder issue now) := by
  refine ⟨?_, ?_, ?_, ?_⟩
  · cases ns <;> cases hc : o.completed_at <;>
      simp [rowUpdateStatus, completionInvariant, hc]
  · rcases hp : form.price with _ | (_ | v)
    · cases hs : form.status.getD o.status <;> cases hc : o.completed_at <;>
        simp [serviceOrderDetailSave, completionInvariant, hp, hs, hc]
    · simpa [serviceOrderDetailSave, hp] using h
    · cases hs : form.status.getD o.status <;> cases hc : o.completed_at <;>
        simp [serviceOrderDetailSave, completionInvariant, hp, hs, hc]
  · simpa [applyServicePackage, completionInvariant] using h
  · simp [createServiceOrder, completionInvariant]

/-- C1 witness: the invariant after each mutation at a concrete order
that satisfies it. -/
theorem completion_invariant_after_every_mutation_witness :
    completionInvariant (rowUpdateStatus
      { status := Status.DONE, service_code := "S-1", issue_description := "",
        work_done := "", price := 10, promised_date := none, checklist := [],
        created_at := 0, completed_at := some 5 } Status.NEW 7).order ∧
    completionInvariant (serviceOrderDetailSave
      { status := Status.DONE, service_code := "S-1", issue_description := "",
        work_done := "", price := 10, promised_date := none, checklist := [],
        created_at := 0, completed_at := some 5 } "a@b.sk"
      { status := some Status.DONE, price := none, issue_description := "x",
        work_done := "y", promised_date := some 20, checklist := none } 7).order ∧
    completionInvariant (applyServicePackage
      { status := Status.DONE, service_code := "S-1", issue_description := "",
        work_done := "", price := 10, promised_date := none, checklist := [],
        created_at := 0, completed_at := some 5 }
      { label := "Basic servis", price := 29,
        work_done := "Základná kontrola bicykla, dofúkanie pneumatík, kontrola bŕzd a radenia.",
        checklist_keys := ["brakes", "shifting", "tyre_pressure", "torque"] }) ∧
    completionInvariant (createServiceOrder "fix brakes" 7) :=
  completion_invariant_after_every_mutation
    { status := Status.DONE, service_code := "S-1", issue_description := "",
      work_done := "", price := 10, promised_date := none, checklist := [],
      created_at := 0, completed_at := some 5 }
    Status.NEW 7 "a@b.sk"
    { status := some Status.DONE, price := none, issue_description := "x",
      work_done := "y", promised_date := some 20, checklist := none }
    { label := "Basic servis", price := 29,
      work_done := "Základná kontrola bicykla, dofúkanie pneumatík, kontrola bŕzd a radenia.",
      checklist_keys := ["brakes", "shifting", "tyre_pressure", "torque"] }
    "fix brakes" (by decide)

/-- C9: an order-detail save whose price field is non-empty and fails
`Decimal` parsing surfaces a validation error and persists nothing — every
stored field of the order is unchanged and no email or log is produced. -/
theorem price_error_persists_nothing
    (o : OrderState) (email : String) (form : DetailForm) (now : Int)
    (hp : form.price = some none) :
    (serviceOrderDetailSave o email form now).order = o ∧
    (serviceOrderDetailSave o email form now).saved = false ∧
    (serviceOrderDetailSave o email form now).emailSent = false ∧
    (serviceOrderDetailSave o email form now).logs = [] ∧
    (serviceOrderDetailSave o email form now).order.status = o.status ∧
    (serviceOrderDetailSave o email form now).order.promised_date = o.promised_date ∧
    (serviceOrderDetailSave o email form now).order.checklist = o.checklist ∧
    (serviceOrderDetailSave o email form now).order.issue_description = o.issue_description ∧
    (serviceOrderDetailSave o email form now).order.work_done = o.work_done ∧
    (serviceOrderDetailSave o email form now).order.price = o.price ∧
    (serviceOrderDetailSave o email form now).order.completed_at = o.completed_at := by
  simp [serviceOrderDetailSave, hp]

/-- C9 witness: a malformed-price submission against a concrete order
leaves the stored row untouched. -/
theorem price_error_persists_nothing_witness :
    (serviceOrderDetailSave
      { status := Status.NEW, service_code := "S-2", issue_description := "i",
        work_done := "w", price := 15, promised_date := some 3, checklist := [("brakes", true)],
        created_at := 0, completed_at := none } "c@d.sk"
      { status := some Status.DONE, price := some none, issue_description := "changed",
        work_done := "changed", promised_date := none, checklist := some ["chain"] } 9).order
      = { status := Status.NEW, service_code := "S-2", issue_description := "i",
          work_done := "w", price := 15, promised_date := some 3, checklist := [("brakes", true)],
          created_at := 0, completed_at := none } ∧
    (serviceOrderDetailSave
      { status := Status.NEW, service_code := "S-2", issue_description := "i",
        work_done := "w", price := 15, promised_date := some 3, checklist := [("brakes", true)],
        created_at := 0, completed_at := none } "c@d.sk"
      { status := some Status.DONE, price := some none, issue_description := "changed",
        work_done := "changed", promised_date := none, checklist := some ["chain"] } 9).logs = [] :=
  ⟨(price_error_persists_nothing
      { status := Status.NEW, service_code := "S-2", issue_description := "i",
        work_done := "w", price := 15, promised_date := some 3, checklist := [("brakes", true)],
        created_at := 0, completed_at := none } "c@d.sk"
      { status := some Status.DONE, price := some none, issue_description := "changed",
        work_done := "changed", promised_date := none, checklist := some ["chain"] } 9 rfl).1,
   (price_error_persists_nothing
      { status := Status.NEW, service_code := "S-2", issue_description := "i",
        work_done := "w", price := 15, promised_date := some 3, checklist := [("brakes", true)],
        created_at := 0, completed_at := none } "c@d.sk"
      { status := some Status.DONE, price := some none, issue_description := "changed",
        work_done := "changed", promised_date := none, checklist := some ["chain"] } 9 rfl).2.2.2.1⟩

/-- A fresh order used for the C5 counterexample. -/
def c5Order : OrderState :=
  { status := Status.NEW, service_code := "S-5", issue_description := "i",
    work_done := "", price := 0, promised_date := none, checklist := [],
    created_at := 0, completed_at := none }

/-- A detail-save form moving the order into `DONE`, used for the C5
counterexample's no-email save. -/
def c5Form : DetailForm :=
  { status := some Status.DONE, price := none, issue_description := "i",
    work_done := "w", promised_date := none, checklist := none }

/-- C5 counterexample: the claim says both the `row_update_status` action
and the order-detail save trigger the "service complete" email and append
the `EMAIL_DONE` log when first moving into `DONE`; but the
`row_update_status` branch of `service_panel` only stamps `completed_at` —
it queues no email and appends no `ServiceOrderLog` — and the detail save
of an order whose customer has no email on file stamps `completed_at`
while skipping both the email and the `EMAIL_DONE` log. -/
theorem row_update_status_done_without_notification :
    (rowUpdateStatus c5Order Status.DONE 1000).order.status = Status.DONE ∧
    (rowUpdateStatus c5Order Status.DONE 1000).order.completed_at = some 1000 ∧
    (rowUpdateStatus c5Order Status.DONE 1000).emailSent = false ∧
    (rowUpdateStatus c5Order Status.DONE 1000).logs = [] ∧
    (serviceOrderDetailSave c5Order "" c5Form 1000).order.status = Status.DONE ∧
    (serviceOrderDetailSave c5Order "" c5Form 1000).order.completed_at = some 1000 ∧
    (serviceOrderDetailSave c5Order "" c5Form 1000).emailSent = false ∧
    (serviceOrderDetailSave c5Order "" c5Form 1000).logs = [] := by
  decide

/-- C5 amended: first-time completion side effects are produced by the
order-detail save only — there, entering `DONE` with `completed_at` null
stamps `now` and, when the customer has an email on file, queues the
"service complete" email and appends the `EMAIL_DONE` log (both are
skipped when the email is missing); saving to a non-`DONE` status — in
particular moving an order out of `DONE` — triggers no notification and
appends no log; the `row_update_status` action stamps `completed_at` on
first-time completion but never notifies or logs, whatever the target
status. -/
theorem done_side_effects_on_detail_save_only
    (o : OrderState) (email : String) (form : DetailForm) (now : Int) :
    (form.status = some Status.DONE → o.completed_at = none →
      form.price ≠ some none → email ≠ "" →
      (serviceOrderDetailSave o email form now).order.completed_at = some now ∧
      (serviceOrderDetailSave o email form now).emailSent = true ∧
      (serviceOrderDetailSave o email form now).logs = [LogKind.EMAIL_DONE]) ∧
    (form.status = some Status.DONE → o.completed_at = none →
      form.price ≠ some none → email = "" →
      (serviceOrderDetailSave o email form now).order.completed_at = some now ∧
      (serviceOrderDetailSave o email form now).emailSent = false ∧
      (serviceOrderDetailSave o email form now).logs = []) ∧
    (∀ s, form.status = some s → s ≠ Status.DONE →
      (serviceOrderDetailSave o email form now).emailSent = false ∧
      (serviceOrderDetailSave o email form now).logs = []) ∧
    (o.completed_at = none →
      (rowUpdateStatus o Status.DONE now).order.completed_at = some now) ∧
    (∀ s, (rowUpdateStatus o s now).emailSent = false ∧
      (rowUpdateStatus o s now).logs = []) := by
  refine ⟨?_, ?_, ?_, ?_, ?_⟩
  · intro hs hc hp he
    rcases hpv : form.price with _ | (_ | v) <;>
      simp [serviceOrderDetailSave, hpv, hs, hc, he]
    exact absurd hpv hp
  · intro hs hc hp he
    rcases hpv : form.price with _ | (_ | v) <;>
      simp [serviceOrderDetailSave, hpv, hs, hc, he]
    exact absurd hpv hp
  · intro s hs hsne
    rcases hpv : form.price with _ | (_ | v) <;>
      simp [serviceOrderDetailSave, hpv, hs, hsne]
  · intro hc
    simp [rowUpdateStatus, hc]
  · intro s
    simp [rowUpdateStatus]

/-- C5 witness: the amended side effects at concrete inputs — an
email-present first-time completion produces the email and the log, and
a save moving a completed order out of `DONE` produces neither. -/
theorem done_side_effects_on_detail_save_only_witness :
    (serviceOrderDetailSave
      { status := Status.READY, service_code := "S-6", issue_description := "i",
        work_done := "", price := 0, promised_date := none, checklist := [],
        created_at := 0, completed_at := none } "a@b.sk"
      { status := some Status.DONE, price := none, issue_description := "i",
        work_done := "w", promised_date := none, checklist := none } 77).order.completed_at
      = some 77 ∧
    (serviceOrderDetailSave
      { status := Status.READY, service_code := "S-6", issue_description := "i",
        work_done := "", price := 0, promised_date := none, checklist := [],
        created_at := 0, completed_at := none } "a@b.sk"
      { status := some Status.DONE, price := none, issue_description := "i",
        work_done := "w", promised_date := none, checklist := none } 77).emailSent = true ∧
    (serviceOrderDetailSave
      { status := Status.READY, service_code := "S-6", issue_description := "i",
        work_done := "", price := 0, promised_date := none, checklist := [],
        created_at := 0, completed_at := none } "a@b.sk"
      { status := some Status.DONE, price := none, issue_description := "i",
        work_done := "w", promised_date := none, checklist := none } 77).logs
      = [LogKind.EMAIL_DONE] ∧
    (serviceOrderDetailSave
      { status := Status.DONE, service_code := "S-6", issue_description := "i",
        work_done := "", price := 0, promised_date := none, checklist := [],
        created_at := 0, completed_at := some 5 } "a@b.sk"
      { status := some Status.READY, price := none, issue_description := "i",
        work_done := "w", promised_date := none, checklist := none } 77).emailSent = false ∧
    (serviceOrderDetailSave
      { status := Status.DONE, service_code := "S-6", issue_description := "i",
        work_done := "", price := 0, promised_date := none, checklist := [],
        created_at := 0, completed_at := some 5 } "a@b.sk"
      { status := some Status.READY, price := none, issue_description := "i",
        work_done := "w", promised_date := none, checklist := none } 77).logs = [] :=
  have h1 := (done_side_effects_on_detail_save_only
    { status := Status.READY, service_code := "S-6", issue_description := "i",
      work_done := "", price := 0, promised_date := none, checklist := [],
      created_at := 0, completed_at := none } "a@b.sk"
    { status := some Status.DONE, price := none, issue_description := "i",
      work_done := "w", promised_date := none, checklist := none } 77).1
    rfl rfl (by decide) (by decide)
  have h2 := (done_side_effects_on_detail_save_only
    { status := Status.DONE, service_code := "S-6", issue_description := "i",
      work_done := "", price := 0, promised_date := none, checklist := [],
      created_at := 0, completed_at := some 5 } "a@b.sk"
    { status := some Status.READY, price := none, issue_description := "i",
      work_done := "w", promised_date := none, checklist := none } 77).2.2.1
    Status.READY rfl (by decide)
  ⟨h1.1, h1.2.1, h1.2.2, h2.1, h2.2⟩

/-- C6: applying a defined service package overwrites the price and the
work-done text with the package's fixed values and rebuilds the whole
checklist: exactly the defined checklist keys occur, each mapped to
whether the package declares it, independent of the prior checklist; for
the "basic" package the keys set true are exactly `brakes`, `shifting`,
`tyre_pressure` and `torque`. -/
theorem apply_package_overwrites
    (o : OrderState) (key : String) (pkg : PackageDef)
    (hpkg : (key, pkg) ∈ SERVICE_PACKAGE_DEFS) :
    (applyServicePackage o pkg).price = pkg.price ∧
    (applyServicePackage o pkg).work_done = pkg.work_done ∧
    (applyServicePackage o pkg).checklist.map Prod.fst = CHECKLIST_DEFS.map Prod.fst ∧
    (∀ k, k ∈ CHECKLIST_DEFS.map Prod.fst →
      List.lookup k (applyServicePackage o pkg).checklist
        = some (pkg.checklist_keys.contains k)) ∧
    (key = "basic" →
      (applyServicePackage o pkg).checklist
        = [("brakes", true), ("shifting", true), ("tyre_pressure", true),
           ("bearings", false), ("torque", true), ("chain", false),
           ("wheels", false), ("cleaning", false)]) := by
  refine ⟨rfl, rfl, by simp [applyServicePackage, CHECKLIST_DEFS], ?_, ?_⟩
  · intro k hk
    simp [CHECKLIST_DEFS] at hk
    rcases hk with h | h | h | h | h | h | h | h <;>
      subst h <;> rfl
  · intro hkey
    subst hkey
    simp [SERVICE_PACKAGE_DEFS] at hpkg
    subst hpkg
    rfl

/-- C6 witness: applying "basic" to an order with a dirty checklist. -/
theorem apply_package_overwrites_witness :
    (applyServicePackage
      { status := Status.NEW, service_code := "S-7", issue_description := "i",
        work_done := "old text", price := 99, promised_date := none,
        checklist := [("brakes", false), ("junk", true)],
        created_at := 0, completed_at := none }
      { label := "Basic servis", price := 29,
        work_done := "Základná kontrola bicykla, dofúkanie pneumatík, kontrola bŕzd a radenia.",
        checklist_keys := ["brakes", "shifting", "tyre_pressure", "torque"] }).checklist
      = [("brakes", true), ("shifting", true), ("tyre_pressure", true),
         ("bearings", false), ("torque", true), ("chain", false),
         ("wheels", false), ("cleaning", false)] :=
  (apply_package_overwrites
    { status := Status.NEW, service_code := "S-7", issue_description := "i",
      work_done := "old text", price := 99, promised_date := none,
      checklist := [("brakes", false), ("junk", true)],
      created_at := 0, completed_at := none }
    "basic"
    { label := "Basic servis", price := 29,
      work_done := "Základná kontrola bicykla, dofúkanie pneumatík, kontrola bŕzd a radenia.",
      checklist_keys := ["brakes", "shifting", "tyre_pressure", "torque"] }
    (List.Mem.head _)).2.2.2.2 rfl

/-- C7: the due-date classifier applies its rules in priority order — no
promised date: gray, no warning; completed: the formatted date, gray, no
warning even when past; past due: the "Mešká" (late) label, orange,
warning; due today: "Dnes" (today), blue, warning; due tomorrow:
"Zajtra" (tomorrow), blue, warning; due in two days: "On time", blue, no
warning; further out: the formatted date, gray, no warning.  The warning
flag is set exactly for non-completed orders whose promised date is
today, tomorrow, or past. -/
theorem eta_meta_classification (o : OrderState) (t : Int) :
    (o.promised_date = none → etaMeta o t = ("Bez termínu", "chip-gray", false)) ∧
    (∀ p, o.promised_date = some p → o.completed_at ≠ none →
      etaMeta o t = (fmtDate p, "chip-gray", false)) ∧
    (∀ p, o.promised_date = some p → o.completed_at = none → p < t →
      etaMeta o t = ("Mešká " ++ fmtDate p, "chip-orange", true)) ∧
    (∀ p, o.promised_date = some p → o.completed_at = none → t = p →
      etaMeta o t = ("Dnes " ++ fmtDate p, "chip-blue", true)) ∧
    (∀ p, o.promised_date = some p → o.completed_at = none → p = t + 1 →
      etaMeta o t = ("Zajtra " ++ fmtDate p, "chip-blue", true)) ∧
    (∀ p, o.promised_date = some p → o.completed_at = none → p = t + 2 →
      etaMeta o t = ("On time " ++ fmtDate p, "chip-blue", false)) ∧
    (∀ p, o.promised_date = some p → o.completed_at = none → t + 2 < p →
      etaMeta o t = (fmtDate p, "chip-gray", false)) ∧
    ((etaMeta o t).2.2 = true ↔
      ∃ p, o.promised_date = some p ∧ o.completed_at = none ∧ p ≤ t + 1) := by
  refine ⟨?_, ?_, ?_, ?_, ?_, ?_, ?_, ?_⟩
  · intro hp
    simp [etaMeta, hp]
  · intro p hp hc
    rcases hcv : o.completed_at with _ | c
    · exact absurd hcv hc
    · simp [etaMeta, hp, hcv]
  · intro p hp hc hlt
    simp [etaMeta, hp, hc, hlt]
  · intro p hp hc ht
    subst ht
    simp [etaMeta, hp, hc]
  · intro p hp hc hpt
    subst hpt
    simp [etaMeta, hp, hc, show ¬(t + 1 < t) from by omega,
      show ¬(t = t + 1) from by omega, show t + 1 - t = 1 from by omega]
  · intro p hp hc hpt
    subst hpt
    simp [etaMeta, hp, hc, show ¬(t + 2 < t) from by omega,
      show ¬(t = t + 2) from by omega, show t + 2 - t = 2 from by omega]
  · intro p hp hc hgt
    simp [etaMeta, hp, hc, show ¬(p < t) from by omega,
      show ¬(t = p) from by omega, show ¬(p - t = 1) from by omega,
      show ¬(p - t ≤ 2) from by omega]
  · rcases hp : o.promised_date with _ | p
    · simp [etaMeta, hp]
    · rcases hc : o.completed_at with _ | c
      · by_cases h1 : p < t
        · simp [etaMeta, hp, hc, h1]; omega
        · by_cases h2 : t = p
          · simp [etaMeta, hp, hc, h1, h2]
          · by_cases h3 : p - t = 1
            · simp [etaMeta, hp, hc, h1, h2, h3]; omega
            · by_cases h4 : p - t ≤ 2
              · simp [etaMeta, hp, hc, h1, h2, h3, h4]; omega
              · simp [etaMeta, hp, hc, h1, h2, h3, h4]; omega
      · simp [etaMeta, hp, hc]

/-- C7 witness: the late branch at a concrete order and day. -/
theorem eta_meta_classification_witness :
    etaMeta
      { status := Status.NEW, service_code := "S-8", issue_description := "i",
        work_done := "", price := 0, promised_date := some 5, checklist := [],
        created_at := 0, completed_at := none } 10
      = ("Mešká " ++ fmtDate 5, "chip-orange", true) :=
  (eta_meta_classification
    { status := Status.NEW, service_code := "S-8", issue_description := "i",
      work_done := "", price := 0, promised_date := some 5, checklist := [],
      created_at := 0, completed_at := none } 10).2.2.1 5 rfl rfl (by decide)

/-- A fresh `NEW` order used for the C2 counterexample. -/
def c2Order : OrderState :=
  { status := Status.NEW, service_code := "S-9", issue_description := "i",
    work_done := "", price := 0, promised_date := none, checklist := [],
    created_at := 0, completed_at := none }

/-- The entity store before the C2 mutation. -/
def c2Db0 : DB := ⟨[c2Order], []⟩

/-- The entity store after a `row_update_status` mutation moved the order
to `IN_PROGRESS` (which calls `invalidate_dashboard_cache`). -/
def c2Db1 : DB := ⟨[(rowUpdateStatus c2Order Status.IN_PROGRESS 100).order], []⟩

/-- The first dashboard read: the version key was never initialised, so
the read defaults the version to 1 and caches the snapshot under v1. -/
def c2Read0 : Snapshot × CacheState := getStaffDashboardCounts ⟨none, []⟩ c2Db0 0

/-- The cache after the mutation's `invalidate_dashboard_cache`:
`cache.add` finds the version key absent and initialises it to 1. -/
def c2AfterInvalidate : CacheState := invalidateDashboardCache c2Read0.2

/-- C2 counterexample: in the never-initialised state the claim fails —
the read before the mutation cached the snapshot under version 1 (the
`cache.get` default) and the first invalidation merely initialises the
counter to that same 1, so the very next read returns the stale
pre-mutation snapshot instead of recomputing from the entity store. -/
theorem stale_snapshot_after_first_invalidation :
    (getStaffDashboardCounts c2AfterInvalidate c2Db1 0).1 = c2Read0.1 ∧
    c2Read0.1 ≠ computeCounts c2Db1 0 := by
  decide

/-- C2 amended: once the version counter has been initialised (any prior
invalidation has run), invalidation works as claimed — after a mutation's
`invalidate_dashboard_cache`, the next read recomputes from the entity
store, because the version increment makes every cached snapshot key
(all of which carry versions at most the current one) unreachable. -/
theorem dashboard_invalidation_after_initialized
    (c : CacheState) (db : DB) (today : Int) (v : Nat)
    (hv : c.version = some v)
    (hk : ∀ e ∈ c.snaps, e.1.1 ≤ v) :
    (getStaffDashboardCounts (invalidateDashboardCache c) db today).1
      = computeCounts db today := by
  have hinv : invalidateDashboardCache c = { c with version := some (v + 1) } := by
    simp [invalidateDashboardCache, hv]
  have hlook : List.lookup ((v + 1 : Nat), today) c.snaps = none := by
    apply lookup_eq_none_of_keys
    intro e he hkeq
    have h1 := hk e he
    rw [hkeq] at h1
    simp at h1
  simp [getStaffDashboardCounts, hinv, hlook]

/-- C2 witness: a cache at version 3 holding a v3 snapshot for day 0 is
recomputed on the read after an invalidation. -/
theorem dashboard_invalidation_after_initialized_witness :
    (getStaffDashboardCounts
      (invalidateDashboardCache
        ⟨some 3, [((3, 0), ⟨0, 0, 0, 0, 0, 0, 0, 0⟩)]⟩)
      ⟨[c2Order], []⟩ 0).1
      = computeCounts ⟨[c2Order], []⟩ 0 :=
  dashboard_invalidation_after_initialized
    ⟨some 3, [((3, 0), ⟨0, 0, 0, 0, 0, 0, 0, 0⟩)]⟩
    ⟨[c2Order], []⟩ 0 3 rfl (by decide)

/-- C3: a query whose stripped text matches "optional `#` + digits" takes
the exact-lookup branch: the result is exactly the orders whose id equals
the digits or whose code contains the digit substring — the token-based
field scan never runs; when exactly one order satisfies the exact lookup
(and the rows are distinct), the result is exactly that order, whatever
the other orders' free-text fields contain. -/
theorem exact_lookup_short_circuits
    (orders : List SearchOrder) (query code : String) (o : SearchOrder)
    (hq : parseExactQuery (trimStr query) = some code) :
    smartSearch orders query = orders.filter (exactLookup code) ∧
    (orders.Nodup → o ∈ orders → exactLookup code o = true →
      (∀ b ∈ orders, exactLookup code b = true → b = o) →
      smartSearch orders query = [o]) := by
  have hne : ¬(trimStr query = "") := by
    intro h
    rw [h] at hq
    simp [parseExactQuery] at hq
  have hmain : smartSearch orders query = orders.filter (exactLookup code) := by
    simp [smartSearch, hne, hq]
  refine ⟨hmain, ?_⟩
  intro hnd hmem hpo huniq
  rw [hmain]
  exact filter_eq_singleton_of_unique _ _ _ hnd hmem hpo huniq

/-- Order with code "ABC-777" for the C3 witness. -/
def c3OrderA : SearchOrder :=
  { id := 1, service_code := "ABC-777", issue_description := "", work_done := "",
    customer_full_name := "", customer_email := "", customer_phone := "",
    bike_brand := "", bike_model := "", bike_serial := "", tickets := [] }

/-- Order whose free text contains "777" but whose id and code do not
match, for the C3 witness. -/
def c3OrderB : SearchOrder :=
  { id := 2, service_code := "XYZ", issue_description := "wheel 777 squeaks",
    work_done := "", customer_full_name := "", customer_email := "",
    customer_phone := "", bike_brand := "", bike_model := "", bike_serial := "",
    tickets := [] }

/-- C3 witness: searching "#777" returns exactly the order with code
"ABC-777" even though another order's free text contains "777". -/
theorem exact_lookup_short_circuits_witness :
    smartSearch [c3OrderA, c3OrderB] "#777" = [c3OrderA] :=
  (exact_lookup_short_circuits [c3OrderA, c3OrderB] "#777" "777" c3OrderA rfl).2
    (by decide) (by decide) (by decide) (by decide)

/-- Order whose stored phone has no separators, for the C4 counterexample. -/
def c4Order1 : SearchOrder :=
  { id := 1, service_code := "", issue_description := "", work_done := "",
    customer_full_name := "", customer_email := "", customer_phone := "0903123456",
    bike_brand := "", bike_model := "", bike_serial := "", tickets := [] }

/-- The same order with the same phone digits stored with spaces, for the
C4 counterexample. -/
def c4Order2 : SearchOrder :=
  { id := 1, service_code := "", issue_description := "", work_done := "",
    customer_full_name := "", customer_email := "", customer_phone := "0903 123 456",
    bike_brand := "", bike_model := "", bike_serial := "", tickets := [] }

/-- C4 counterexample: only the token is digit-stripped; the stored phone
number is matched as stored (`phone_number__icontains=token_phone`), so
two stored numbers with identical digit content behave differently — the
claimed independence of stored formatting fails. -/
theorem phone_match_depends_on_stored_formatting :
    digitsOnly "0903123456" = digitsOnly "0903 123 456" ∧
    tokenPhoneMatch "0903-123-456" "0903123456" = true ∧
    tokenPhoneMatch "0903-123-456" "0903 123 456" = false ∧
    smartSearch [c4Order1] "0903-123-456" = [c4Order1] ∧
    smartSearch [c4Order2] "0903-123-456" = [] := by
  decide

/-- C4 amended: the digit normalization applies to the token side only —
the phone match depends on the token only through its digit sequence
(punctuation in the token is irrelevant), while it remains sensitive to
the formatting of the stored phone number. -/
theorem phone_match_token_normalization (t1 t2 phone : String)
    (h : digitsOnly t1 = digitsOnly t2) :
    tokenPhoneMatch t1 phone = tokenPhoneMatch t2 phone := by
  simp only [tokenPhoneMatch, h]

/-- C4 witness: two differently punctuated tokens with the same digits
match the same stored phone number identically. -/
theorem phone_match_token_normalization_witness :
    tokenPhoneMatch "0903-123-456" "0903123456"
      = tokenPhoneMatch "(0903)123456" "0903123456" :=
  phone_match_token_normalization "0903-123-456" "(0903)123456" "0903123456" rfl

/-- The spec's wording of the averaging window, for the refinement
comparison in C8: "the 200 most recent completed orders", ordered by
completion time descending. -/
def specRecent200Completed (db : DB) : List OrderState :=
  (sortByKeyDesc (fun o => o.completed_at.getD 0)
    (db.orders.filter (fun o => o.completed_at.isSome))).take 200

/-- The spec's wording of the eligible durations, for the refinement
comparison in C8: `(completed_at - created_at)` in days over the window,
excluding orders whose `completed_at` is before their `created_at`. -/
def specEligibleDurations (db : DB) : List Rat :=
  (specRecent200Completed db).filterMap (fun o =>
    match o.completed_at with
    | some c => if c < o.created_at then none else some (((c - o.created_at : Int) : Rat) / 86400)
    | none => none)

/-- C8: the snapshot's average repair duration is the mean of the
eligible durations in days over the 200 most recently completed orders,
rounded to one decimal, inconsistent timestamps excluded; and it is
exactly 0 when no completed order exists. -/
theorem avg_repair_days_spec (db : DB) (today : Int) :
    ((computeCounts db today).avg_repair_days
      = if specEligibleDurations db = [] then 0
        else round1 ((specEligibleDurations db).sum
            / ((specEligibleDurations db).length : Rat))) ∧
    ((∀ o ∈ db.orders, o.completed_at = none) →
      (computeCounts db today).avg_repair_days = 0) := by
  constructor
  · have hdur :
        ((sortByKeyDesc (fun o => o.completed_at.getD 0)
          (db.orders.filter (fun o => o.completed_at.isSome))).take 200).filterMap
            (fun o =>
              match o.completed_at with
              | some c =>
                  if o.created_at ≤ c then some (((c - o.created_at : Int) : Rat) / 86400)
                  else none
              | none => none)
          = specEligibleDurations db := by
      unfold specEligibleDurations specRecent200Completed
      apply List.filterMap_congr
      intro o _
      cases hcv : o.completed_at with
      | none => rfl
      | some c =>
          by_cases h : o.created_at ≤ c
          · simp [h, not_lt.mpr h]
          · simp [h, lt_of_not_le h]
    simp only [computeCounts, hdur]
    cases hE : specEligibleDurations db with
    | nil => simp [hE]
    | cons d t => simp [hE]
  · intro hall
    have hfilter : db.orders.filter (fun o => o.completed_at.isSome) = [] := by
      rw [List.filter_eq_nil_iff]
      intro o ho
      simp [hall o ho]
    simp [computeCounts, hfilter, sortByKeyDesc, insSort]

/-- C8 witness: a store with one uncompleted order has average repair
days exactly 0. -/
theorem avg_repair_days_spec_witness :
    (computeCounts
      ⟨[{ status := Status.NEW, service_code := "S-11", issue_description := "i",
          work_done := "", price := 0, promised_date := none, checklist := [],
          created_at := 3, completed_at := none }], []⟩ 5).avg_repair_days = 0 :=
  (avg_repair_days_spec
    ⟨[{ status := Status.NEW, service_code := "S-11", issue_description := "i",
        work_done := "", price := 0, promised_date := none, checklist := [],
        created_at := 3, completed_at := none }], []⟩ 5).2 (by decide)

/-- A completed order priced at -3.00 EUR (the price field has no
non-negativity constraint and the detail save accepts any `Decimal`),
used for the C10 counterexample. -/
def c10Order : OrderState :=
  { status := Status.DONE, service_code := "S-12", issue_description := "",
    work_done := "", price := -3, promised_date := none, checklist := [],
    created_at := 0, completed_at := some 10 }

/-- C10 counterexample: `to_integral_value(rounding=ROUND_DOWN)`
truncates toward zero, so for the (schema-permitted) negative total
-3.00 the code yields -1 point while the claimed `floor(S / 2)` is -2. -/
theorem loyalty_points_truncate_toward_zero :
    (loyaltyStatsForProfile [c10Order]).total_spent = -3 ∧
    (loyaltyStatsForProfile [c10Order]).points = -1 ∧
    (⌊((-3 : Rat) / 2)⌋ : Int) = -2 ∧
    (loyaltyStatsForProfile [c10Order]).points
      ≠ ⌊(loyaltyStatsForProfile [c10Order]).total_spent / 2⌋ := by
  have htot : (loyaltyStatsForProfile [c10Order]).total_spent = -3 := by
    simp [loyaltyStatsForProfile, c10Order]
  have hfloor : (⌊((-3 : Rat) / 2)⌋ : Int) = -2 := by
    norm_num
  have hpts : (loyaltyStatsForProfile [c10Order]).points = -1 := by
    have e : (loyaltyStatsForProfile [c10Order]).points
        = ratTrunc ((loyaltyStatsForProfile [c10Order]).total_spent / 2) := rfl
    rw [e, htot]
    simp only [ratTrunc]
    rw [if_pos (by norm_num)]
    norm_num
  refine ⟨htot, hpts, hfloor, ?_⟩
  rw [hpts, htot, hfloor]
  decide

/-- C10 amended: with S the (two-decimal) sum of completed-order prices,
the code computes `points` as S/2 rounded toward zero — which equals
`floor(S / 2)` whenever S is non-negative — `discount_eur` as Python
`points // 10`, and `points_to_next` as 0 when `points % 10 == 0` and
`10 - points % 10` otherwise, always within 0..9. -/
theorem loyalty_stats_characterization (orders : List OrderState) :
    (loyaltyStatsForProfile orders).points
      = ratTrunc ((loyaltyStatsForProfile orders).total_spent / 2) ∧
    (0 ≤ (loyaltyStatsForProfile orders).total_spent →
      (loyaltyStatsForProfile orders).points
        = ⌊(loyaltyStatsForProfile orders).total_spent / 2⌋) ∧
    (loyaltyStatsForProfile orders).discount_eur
      = Int.fdiv (loyaltyStatsForProfile orders).points 10 ∧
    (loyaltyStatsForProfile orders).points_to_next
      = (if Int.emod (loyaltyStatsForProfile orders).points 10 = 0 then 0
         else 10 - Int.emod (loyaltyStatsForProfile orders).points 10) ∧
    0 ≤ (loyaltyStatsForProfile orders).points_to_next ∧
    (loyaltyStatsForProfile orders).points_to_next ≤ 9 := by
  refine ⟨rfl, ?_, rfl, rfl, ?_, ?_⟩
  · intro h
    have hq : ¬((loyaltyStatsForProfile orders).total_spent / 2 < 0) :=
      not_lt.mpr (div_nonneg h (by norm_num))
    have e : (loyaltyStatsForProfile orders).points
        = ratTrunc ((loyaltyStatsForProfile orders).total_spent / 2) := rfl
    rw [e]
    simp only [ratTrunc]
    rw [if_neg hq]
  · have h1 : 0 ≤ Int.emod (loyaltyStatsForProfile orders).points 10 :=
      Int.emod_nonneg _ (by norm_num)
    have h2 : Int.emod (loyaltyStatsForProfile orders).points 10 < 10 :=
      Int.emod_lt_of_pos _ (by norm_num)
    have e : (loyaltyStatsForProfile orders).points_to_next
        = (if Int.emod (loyaltyStatsForProfile orders).points 10 = 0 then 0
           else 10 - Int.emod (loyaltyStatsForProfile orders).points 10) := rfl
    rw [e]
    split_ifs <;> omega
  · have h1 : 0 ≤ Int.emod (loyaltyStatsForProfile orders).points 10 :=
      Int.emod_nonneg _ (by norm_num)
    have h2 : Int.emod (loyaltyStatsForProfile orders).points 10 < 10 :=
      Int.emod_lt_of_pos _ (by norm_num)
    have e : (loyaltyStatsForProfile orders).points_to_next
        = (if Int.emod (loyaltyStatsForProfile orders).points 10 = 0 then 0
           else 10 - Int.emod (loyaltyStatsForProfile orders).points 10) := rfl
    rw [e]
    split_ifs <;> omega

/-- A completed order priced at 25.00 EUR for the C10 witness. -/
def c10WitnessOrder : OrderState :=
  { status := Status.DONE, service_code := "S-13", issue_description := "",
    work_done := "", price := 25, promised_date := none, checklist := [],
    created_at := 0, completed_at := some 10 }

/-- C10 witness: for a non-negative concrete total the points equal the
floor of half the total, and the distance to the next step is in 0..9. -/
theorem loyalty_stats_characterization_witness :
    (loyaltyStatsForProfile [c10WitnessOrder]).points
      = ⌊(loyaltyStatsForProfile [c10WitnessOrder]).total_spent / 2⌋ ∧
    0 ≤ (loyaltyStatsForProfile [c10WitnessOrder]).points_to_next ∧
    (loyaltyStatsForProfile [c10WitnessOrder]).points_to_next ≤ 9 :=
  ⟨(loyalty_stats_characterization [c10WitnessOrder]).2.1
      (by norm_num [loyaltyStatsForProfile, c10WitnessOrder,
        List.filterMap_cons, List.filterMap_nil]),
   (loyalty_stats_characterization [c10WitnessOrder]).2.2.2.2.1,
   (loyalty_stats_characterization [c10WitnessOrder]).2.2.2.2.2⟩

end BikeService
